import Mathlib

/-!
Verification of the RAG (retrieval-augmented generation) core of the
Voltic AI bot repository: document ingestion
(`rag_system/document_uploader.py`), the knowledge store access layer
(`rag_system/rag_database.py`), the retrieval engine
(`rag_system/rag_engine.py`), the embedding adapter
(`rag_system/embedding_service.py`), startup initialisation
(`rag_system/rag_system.py`) and the generation call (`ai_service.py`).

External capabilities (the OpenAI client, the langchain text splitter,
PyPDF2/docx extraction, the hash function, the encoding-fallback decoder
and the PostgreSQL engine) are modelled as explicit function parameters;
the repository's own control flow and data handling are translated
statement by statement.  Machine floats of the source are modelled as
rationals; per-call provider nondeterminism is modelled as an oracle
argument.
-/

/-! ## Python string primitives

The Python string operations the source uses (`strip`, `replace`, slicing,
`lower`, `split`), written over `String.data` by structural recursion so
that concrete runs of the model evaluate inside the kernel. -/

/-- Python `str.strip()`: remove leading and trailing whitespace. -/
def pyStrip (s : String) : String :=
  ⟨((s.data.dropWhile Char.isWhitespace).reverse.dropWhile Char.isWhitespace).reverse⟩

/-- Whether `pat` is an initial segment of `l`. -/
def startsWith (pat l : List Char) : Bool :=
  match pat, l with
  | [], _ => true
  | _ :: _, [] => false
  | p :: ps, c :: cs => c = p && startsWith ps cs

/-- Left-to-right non-overlapping replacement of `pat` by `repl`, fuelled by
the input length (for a non-empty `pat` the fuel is never exhausted). -/
def replaceAux (pat repl : List Char) : ℕ → List Char → List Char
  | 0, l => l
  | _ + 1, [] => []
  | fuel + 1, c :: rest =>
    if startsWith pat (c :: rest) then
      repl ++ replaceAux pat repl fuel ((c :: rest).drop pat.length)
    else c :: replaceAux pat repl fuel rest

/-- Python `s.replace(pat, repl)` (all occurrences, left to right). -/
def pyReplace (s pat repl : String) : String :=
  ⟨replaceAux pat.data repl.data s.data.length s.data⟩

/-- Python slicing `s[:n]`. -/
def pyTake (s : String) (n : ℕ) : String := ⟨s.data.take n⟩

/-- Python truthiness of a string: `not s` holds exactly when `s` is empty. -/
def pyEmpty (s : String) : Bool := s.data.isEmpty

/-- Split a character list at every occurrence of `sep` (Python
`s.split(sep)` for a single-character separator). -/
def splitOnChar (sep : Char) : List Char → List (List Char)
  | [] => [[]]
  | c :: rest =>
    match splitOnChar sep rest with
    | [] => [[]]
    | g :: gs => if c = sep then [] :: g :: gs else (c :: g) :: gs

/-- Python `str.lower()`. -/
def pyLower (s : String) : String := ⟨s.data.map Char.toLower⟩

/-- Embedding vector (1536-dimensional float vector in the reference system). -/
abbrev Vec := List ℚ

/-- Raw file content: a byte sequence. -/
abbrev Bytes := List ℕ

/-- Row of the `rag_documents` table (`rag_database.py`, `_create_tables`):
id SERIAL, filename, file_hash (UNIQUE), uploaded_by, total_chunks (DEFAULT 0). -/
structure DocRow where
  id : ℕ
  filename : String
  fileHash : String
  uploadedBy : ℕ
  totalChunks : ℕ
deriving DecidableEq

/-- Row of the `rag_chunks` table together with the JSONB metadata keys the
uploader writes (`document_uploader.py`, `_process_and_save` step 3):
filename, chunk_index, total_chunks, uploaded_by. -/
structure ChunkRow where
  documentId : ℕ
  chunkIndex : ℕ
  content : String
  embedding : Vec
  metaFilename : String
  metaChunkIndex : ℕ
  metaTotalChunks : ℕ
  metaUploadedBy : ℕ
deriving DecidableEq

/-- The RAG store state: the documents and chunks tables plus the next
SERIAL id for `rag_documents`. -/
structure RagDB where
  docs : List DocRow
  chunks : List ChunkRow
  nextId : ℕ
deriving DecidableEq

/-- The duplicate check `SELECT id FROM rag_documents WHERE file_hash = $1`
used by all three processors in `document_uploader.py`. -/
def hashExists (db : RagDB) (h : String) : Bool :=
  db.docs.any fun d => d.fileHash == h

/-- `RAGDatabase.add_document`: INSERT RETURNING id; `total_chunks` starts at
its column default 0. -/
def add_document (db : RagDB) (filename fileHash : String) (uid : ℕ) : ℕ × RagDB :=
  (db.nextId,
   { db with
      docs := db.docs ++ [⟨db.nextId, filename, fileHash, uid, 0⟩],
      nextId := db.nextId + 1 })

/-- `RAGDatabase.add_chunk`: appends one immutable chunk row. -/
def add_chunk (db : RagDB) (row : ChunkRow) : RagDB :=
  { db with chunks := db.chunks ++ [row] }

/-- The `UPDATE rag_documents SET total_chunks = $1 WHERE id = $2` issued at
the end of `_process_and_save`. -/
def set_total_chunks (db : RagDB) (docId n : ℕ) : RagDB :=
  { db with
      docs := db.docs.map fun d => if d.id = docId then { d with totalChunks := n } else d }

/-- Ingestion rejection kinds; each corresponds to one of the
`return {'success': False, 'error': ...}` sites of `document_uploader.py`. -/
inductive UpErr where
  /-- unsupported file extension (`process_file` final branch) -/
  | unsupported
  /-- "Этот документ уже загружен": the file hash already exists -/
  | duplicate
  /-- decode/extraction gave no text or fewer than 10 characters after strip -/
  | emptyOrUnreadable
  /-- the splitter produced no chunks (`_process_and_save` step 1) -/
  | noChunks
deriving DecidableEq

/-- Outcome dictionary of `process_file` and friends: either the success
dictionary (document_id, chunks_created, total_text_length) or an error. -/
inductive UpOutcome where
  | ok (docId chunksCreated totalTextLength : ℕ)
  | err (e : UpErr)
deriving DecidableEq

/-- Whether an upload outcome is the `'success': True` dictionary. -/
def isOk : UpOutcome → Bool
  | .ok _ _ _ => true
  | .err _ => false

/-- Result of one ingestion call: its outcome, the store state afterwards,
and observability flags for the work performed (whether text
extraction/decoding ran, whether the splitter ran, and how many per-chunk
embedding calls were issued). -/
structure UploadResult where
  outcome : UpOutcome
  db : RagDB
  extracted : Bool
  splitCalled : Bool
  embedCalls : ℕ
deriving DecidableEq

/-- External capabilities consumed by `DocumentUploader`:
`md5` is `hashlib.md5(file_bytes).hexdigest()`; `split` is the
langchain `RecursiveCharacterTextSplitter.split_text`; `embedAt i` is the
outcome of the embedding call made for the chunk at source position `i`
(`EmbeddingService.create_embedding`, `None` on provider failure);
`decode` is the utf-8/cp1251/latin-1 fallback chain of `process_text`
(`none` when every decode raises); `extractPdf`/`extractDocx` are the
PyPDF2 / python-docx extraction helpers (they return `""` on error and
already strip null bytes, as `_extract_pdf_text`/`_extract_docx_text` do). -/
structure UploadCtx where
  md5 : Bytes → String
  split : String → List String
  embedAt : ℕ → Option Vec
  decode : Bytes → Option String
  extractPdf : Bytes → String
  extractDocx : Bytes → String

/-- `text.replace('\x00', '')`: the null-byte strip applied before storage. -/
def stripNull (s : String) : String := pyReplace s "\x00" ""

/-- The per-chunk loop of `_process_and_save` (step 3): enumerate the chunks,
request an embedding for each, skip a chunk whose embedding is `None`,
otherwise build its row (index `i`, content, embedding, metadata with the
attempted total); returns the rows persisted in order together with the
`processed_chunks` counter. -/
def ingestLoop (e : ℕ → Option Vec) (d : ℕ) (f : String) (u : ℕ) (t : ℕ) :
    ℕ → List String → List ChunkRow × ℕ
  | _, [] => ([], 0)
  | i, c :: rest =>
    match e i with
    | none => ingestLoop e d f u t (i + 1) rest
    | some v =>
      (⟨d, i, c, v, f, i, t, u⟩ :: (ingestLoop e d f u t (i + 1) rest).1,
       (ingestLoop e d f u t (i + 1) rest).2 + 1)

/-- `DocumentUploader._process_and_save`: split the text, fail when the
splitter returns nothing, create the document row, run the per-chunk loop
(persisting each surviving row via `add_chunk`), then update the document's
`total_chunks` to the processed count. -/
def process_and_save (ctx : UploadCtx) (db : RagDB)
    (text filename fileHash : String) (uid : ℕ) : UploadResult :=
  let chunks := ctx.split text
  if chunks.isEmpty then
    ⟨.err .noChunks, db, false, true, 0⟩
  else
    let docId := (add_document db filename fileHash uid).1
    let db1 := (add_document db filename fileHash uid).2
    let rowsCount := ingestLoop ctx.embedAt docId filename uid chunks.length 0 chunks
    let db2 := rowsCount.1.foldl add_chunk db1
    let db3 := set_total_chunks db2 docId rowsCount.2
    ⟨.ok docId rowsCount.2 text.length, db3, false, true, chunks.length⟩

/-- `DocumentUploader.process_text`: hash and duplicate check first, then the
encoding-fallback decode, the null-byte strip, the
`if not text or len(text.strip()) < 10` floor, then `_process_and_save`. -/
def process_text (ctx : UploadCtx) (db : RagDB) (bytes : Bytes)
    (filename : String) (uid : ℕ) : UploadResult :=
  let h := ctx.md5 bytes
  if hashExists db h then
    ⟨.err .duplicate, db, false, false, 0⟩
  else
    match ctx.decode bytes with
    | none => ⟨.err .emptyOrUnreadable, db, true, false, 0⟩
    | some t0 =>
      let t := stripNull t0
      if pyEmpty t ∨ (pyStrip t).length < 10 then
        ⟨.err .emptyOrUnreadable, db, true, false, 0⟩
      else
        { process_and_save ctx db t filename h uid with extracted := true }

/-- `DocumentUploader.process_pdf`: hash and duplicate check first, then
`_extract_pdf_text`, the same minimum-content floor, then
`_process_and_save`. -/
def process_pdf (ctx : UploadCtx) (db : RagDB) (bytes : Bytes)
    (filename : String) (uid : ℕ) : UploadResult :=
  let h := ctx.md5 bytes
  if hashExists db h then
    ⟨.err .duplicate, db, false, false, 0⟩
  else
    let t := ctx.extractPdf bytes
    if pyEmpty t ∨ (pyStrip t).length < 10 then
      ⟨.err .emptyOrUnreadable, db, true, false, 0⟩
    else
      { process_and_save ctx db t filename h uid with extracted := true }

/-- `DocumentUploader.process_docx`: same shape as `process_pdf` with the
python-docx extractor. -/
def process_docx (ctx : UploadCtx) (db : RagDB) (bytes : Bytes)
    (filename : String) (uid : ℕ) : UploadResult :=
  let h := ctx.md5 bytes
  if hashExists db h then
    ⟨.err .duplicate, db, false, false, 0⟩
  else
    let t := ctx.extractDocx bytes
    if pyEmpty t ∨ (pyStrip t).length < 10 then
      ⟨.err .emptyOrUnreadable, db, true, false, 0⟩
    else
      { process_and_save ctx db t filename h uid with extracted := true }

/-- `filename.lower().split('.')[-1] if '.' in filename else ''`. -/
def fileExt (filename : String) : String :=
  if filename.data.contains '.' then
    ⟨(splitOnChar '.' (pyLower filename).data).getLastD []⟩
  else ""

/-- `DocumentUploader.process_file`: dispatch on the extension; extensions
outside pdf/txt/md/text/docx/doc are rejected as unsupported. -/
def process_file (ctx : UploadCtx) (db : RagDB) (bytes : Bytes)
    (filename : String) (uid : ℕ) : UploadResult :=
  let ext := fileExt filename
  if ext = "pdf" then process_pdf ctx db bytes filename uid
  else if ["txt", "md", "text"].contains ext then process_text ctx db bytes filename uid
  else if ["docx", "doc"].contains ext then process_docx ctx db bytes filename uid
  else ⟨.err .unsupported, db, false, false, 0⟩

/-- Extensions for which `process_file` runs one of the three processors. -/
def supportedExt (ext : String) : Bool :=
  ext == "pdf" || ["txt", "md", "text"].contains ext || ["docx", "doc"].contains ext

/-! ## Embedding adapter (`embedding_service.py`) -/

/-- The `if len(text) > 8000: text = text[:8000]` truncation applied to every
text before submission to the provider. -/
def truncate8000 (t : String) : String :=
  if t.length > 8000 then pyTake t 8000 else t

/-- `EmbeddingService.create_embeddings_batch`: one provider request for the
whole (truncated) batch.  The provider call is modelled as a function
returning `none` when `client.embeddings.create` raises; in that case the
except-branch returns `[None] * len(texts)`; otherwise each returned
vector is wrapped in `some` in provider order. -/
def create_embeddings_batch (api : List String → Option (List Vec))
    (texts : List String) : List (Option Vec) :=
  match api (texts.map truncate8000) with
  | some embs => embs.map some
  | none => List.replicate texts.length none

/-! ## Retrieval engine (`rag_engine.py`) -/

/-- One row of `RAGDatabase.search_chunks`'s result: chunk id, content, the
joined document's filename and the cosine similarity
`1 - (embedding <=> query)`.  (The parsed JSONB metadata is also returned
by `search_chunks` but never read by the engine.) -/
structure SChunk where
  id : ℕ
  content : String
  filename : String
  similarity : ℚ
deriving DecidableEq

/-- `self.similarity_threshold = 0.7` of `RAGEngine.__init__`. -/
def similarity_threshold : ℚ := 7 / 10

/-- Python's `f"{x:.2f}"` two-decimal rendering of the similarity score,
modelled on rationals with round-to-nearest. -/
def format_similarity (q : ℚ) : String :=
  let m : ℤ := round (q * 100)
  let sign := if m < 0 then "-" else ""
  let a := m.natAbs
  sign ++ toString (a / 100) ++ "." ++ (if a % 100 < 10 then "0" else "") ++ toString (a % 100)

/-- One entry of `RAGEngine._build_context`: the content truncated at 500
characters (with a `"..."` marker when cut), tagged with the source
filename and the formatted similarity.  The loop index `i` mirrors
`enumerate`; its only use in the source is the `f'Документ {i + 1}'`
default of `chunk.get('filename', ...)`, which never fires because
`search_chunks` always supplies a filename. -/
def context_entry (_i : ℕ) (c : SChunk) : String :=
  "[Источник: " ++ c.filename ++ ", релевантность: " ++ format_similarity c.similarity
    ++ "]:\n" ++ (if c.content.length > 500 then pyTake c.content 500 ++ "..." else c.content)

/-- The `context_parts` accumulation loop of `_build_context`. -/
def context_parts (i : ℕ) : List SChunk → List String
  | [] => []
  | c :: rest => context_entry i c :: context_parts (i + 1) rest

/-- `RAGEngine._build_context`: `"\n\n".join(context_parts)`. -/
def build_context (chunks : List SChunk) : String :=
  String.intercalate "\n\n" (context_parts 0 chunks)

/-- `RAGEngine._build_prompt`: the fixed instructional template around the
context block and the user question. -/
def build_prompt (query context : String) : String :=
  "Use this information from the knowledge base to answer the question:\n\n"
    ++ "INFORMATION FROM THE KNOWLEDGE BASE:\n" ++ context
    ++ "\n\nUSER QUESTION:\n" ++ query ++ "\n"

/-- `RAGEngine._clean_response`: strip the internal source/relevance markers
and surrounding whitespace from the generated text. -/
def clean_response (r : String) : String :=
  pyStrip (pyReplace (pyReplace r "[Источник:" "") "релевантность:" "")

/-- One row of the `rag_usage_stats` table as written by
`RAGDatabase.log_usage` (the wall-clock `response_time_ms` column is a
real-time measurement and is not modelled). -/
structure UsageRec where
  userId : ℕ
  query : String
  chunksUsed : ℕ
deriving DecidableEq

/-- The success dictionary returned by `RAGEngine.process_query`
(`response_time_ms`, a wall-clock measurement, is not modelled). -/
structure RagSuccess where
  response : String
  ragUsed : Bool
  chunksUsed : ℕ
  chunks : List SChunk
deriving DecidableEq

/-- Observable result of one `process_query` call: the returned value
(`none` models Python's `None`, the no-opinion abstention), whether the
generation backend (`openai_assistant.get_response`) was invoked, and the
usage row written by `log_usage` (if any). -/
structure QueryResult where
  retval : Option RagSuccess
  generateCalled : Bool
  logged : Option UsageRec
deriving DecidableEq

/-- External collaborators of `RAGEngine`: `embed` is
`EmbeddingService.create_embedding` (`none` on provider failure);
`search` is `RAGDatabase.search_chunks` with its `limit` argument;
`generate` is `OpenAIAssistant.get_response` applied to the augmented
prompt (its other arguments — user id, history, `RAG=True` — do not affect
the engine's observable control flow and are held fixed; per `ai_service.py`
it always returns a string). -/
structure QueryEnv where
  embed : String → Option Vec
  search : Vec → ℕ → List SChunk
  generate : String → String

/-- The `relevant_chunks` list comprehension of `process_query` step 3:
keep the chunks whose similarity is at least the threshold. -/
def relevant_of (env : QueryEnv) (qemb : Vec) : List SChunk :=
  (env.search qemb 4).filter fun c => decide (similarity_threshold ≤ c.similarity)

/-- `RAGEngine.process_query`: embed the query (abstain on failure), search
the top 4 chunks, filter by the 0.7 threshold (abstain when none pass),
build the context and prompt, call the generation backend, clean the
response, log the usage row and return the success dictionary.  Any
exception is caught and converted to `None`; the modelled collaborators
are total, so the except-branch has no arrow here. -/
def process_query (env : QueryEnv) (userId : ℕ) (query : String) : QueryResult :=
  match env.embed query with
  | none => ⟨none, false, none⟩
  | some qemb =>
    let relevant := relevant_of env qemb
    if relevant.isEmpty then ⟨none, false, none⟩
    else
      let response := env.generate (build_prompt query (build_context relevant))
      ⟨some ⟨clean_response response, true, relevant.length, relevant⟩,
       true,
       some ⟨userId, query, relevant.length⟩⟩

/-! ## Generation call (`ai_service.py`) -/

/-- A chat message as assembled by `OpenAIAssistant.get_response`. -/
structure Msg where
  role : String
  content : String
deriving DecidableEq

/-- Outcome of the provider call
`asyncio.wait_for(client.chat.completions.create(...), timeout)`:
the completion text, an `asyncio.TimeoutError`, or any other exception. -/
inductive ProviderResult where
  | ok (text : String)
  | timeout
  | err (e : String)
deriving DecidableEq

/-- The OpenAI chat client as seen by `get_response`. -/
structure AiEnv where
  complete : List Msg → ProviderResult

/-- The fixed message returned on `asyncio.TimeoutError`. -/
def timeout_message : String :=
  "⏳ Sorry, the response is taking longer than expected. Please try again later or use the menu buttons."

/-- The fixed message returned on any other provider exception. -/
def unavailable_message : String :=
  "The AI assistant is currently unavailable. Please use the menu buttons or try again later."

/-- The history bound of `get_response`: `max_history = 3`; when more than
`max_history * 2` entries exist, keep `history[-6:]`. -/
def bounded_history (history : List Msg) : List Msg :=
  if history.length > 3 * 2 then history.drop (history.length - 3 * 2) else history

/-- The message list built by `get_response`: the RAG or plain system prompt,
then the (bounded) history, then the current user message. -/
def build_messages (systemPrompt systemPromptRag : String) (rag : Bool)
    (history : List Msg) (userMessage : String) : List Msg :=
  (if rag then [⟨"system", systemPromptRag⟩] else [⟨"system", systemPrompt⟩])
    ++ bounded_history history ++ [⟨"user", userMessage⟩]

/-- `OpenAIAssistant.get_response`: build the messages, call the provider;
on success strip the text, remove triple-backtick fences and strip again;
on timeout or any other exception return the corresponding fixed
human-readable string.  The function always returns a string. -/
def get_response (env : AiEnv) (systemPrompt systemPromptRag : String)
    (userMessage : String) (history : List Msg) (rag : Bool) : String :=
  match env.complete (build_messages systemPrompt systemPromptRag rag history userMessage) with
  | .ok t => pyStrip (pyReplace (pyStrip t) "```" "")
  | .timeout => timeout_message
  | .err _ => unavailable_message

/-! ## Startup initialisation (`rag_system.py`) -/

/-- `max_retries = 5` of `init_rag_system`. -/
def max_retries : ℕ := 5

/-- `retry_delay = 2` (seconds) of `init_rag_system`. -/
def retry_delay : ℕ := 2

/-- The `for attempt in range(max_retries)` connection loop of
`init_rag_system`: `succ k` tells whether `rag_db.connect()` succeeds on
attempt `k` (0-based); `remaining` is the number of loop iterations left.
On a failed non-final attempt the loop sleeps `retry_delay * 2 ** attempt`
seconds (recorded in the returned list); on a failed final attempt it
re-raises (`Except.error`). -/
def connect_attempts (succ : ℕ → Bool) (delay : ℕ) :
    ℕ → ℕ → Except Unit ℕ × List ℕ
  | _, 0 => (Except.error (), [])
  | attempt, remaining + 1 =>
    if succ attempt then (Except.ok attempt, [])
    else if remaining = 0 then (Except.error (), [])
    else
      ((connect_attempts succ delay (attempt + 1) remaining).1,
       delay * 2 ^ attempt :: (connect_attempts succ delay (attempt + 1) remaining).2)

/-- `init_rag_system(settings, ai_assistant)` reduced to its observable
return value: `False` when RAG is disabled or the database URL is unset;
otherwise run the retry loop — an exception raised after exhausting the
attempts is caught by the function's own outer `except`, which returns
`False`; when the connection succeeds the remaining initialisation steps
run and the function returns `True`. -/
def init_rag_system (ragEnabled portSet : Bool) (succ : ℕ → Bool) : Bool :=
  if ragEnabled = false then false
  else if portSet = false then false
  else
    match (connect_attempts succ retry_delay 0 max_retries).1 with
    | Except.error _ => false
    | Except.ok _ => true

/-! ## Spec-side auxiliary definitions and concrete scenarios -/

/-- Stated from the spec's words "fewer than 10 non-whitespace characters"
(§4.4 step 2): the number of non-whitespace characters of a string.  Used
to compare the spec's minimum-content floor with the source's
`len(text.strip()) < 10`. -/
def spec_non_whitespace_count (s : String) : ℕ :=
  (s.data.filter fun c => !c.isWhitespace).length

/-- An empty knowledge store (fresh tables, first SERIAL id 1). -/
def db0 : RagDB := ⟨[], [], 1⟩

/-- Scenario for duplicate handling: text files decode to a 2-character
string, which is below the minimum-content floor. -/
def ctx2 : UploadCtx :=
  { md5 := fun _ => "h2", split := fun t => [t], embedAt := fun _ => some [1],
    decode := fun _ => some "hi", extractPdf := fun _ => "", extractDocx := fun _ => "" }

/-- Scenario for the minimum-content floor: the decoded text
`"a a a a a a"` has 6 non-whitespace characters but 11 characters after
stripping outer whitespace. -/
def ctx7 : UploadCtx :=
  { md5 := fun _ => "h7", split := fun t => [t], embedAt := fun _ => some [1],
    decode := fun _ => some "a a a a a a", extractPdf := fun _ => "", extractDocx := fun _ => "" }

/-- Scenario for a successful ingestion: a long-enough decoded text, a
one-chunk splitter and an always-succeeding embedder. -/
def ctxW : UploadCtx :=
  { md5 := fun _ => "hW", split := fun t => [t], embedAt := fun _ => some [1],
    decode := fun _ => some "hello world abcdefg", extractPdf := fun _ => "", extractDocx := fun _ => "" }

/-- Scenario for ingestion with partial embedding failure: two chunks, the
embedding call for position 0 fails and the one for position 1 succeeds. -/
def ctx9 : UploadCtx :=
  { md5 := fun _ => "h9", split := fun _ => ["c0", "c1"],
    embedAt := fun i => if i = 0 then none else some [1],
    decode := fun _ => some "long enough text!", extractPdf := fun _ => "", extractDocx := fun _ => "" }

/-- Retrieval scenario: the query embeds, but the store is empty, so the
search returns no chunks. -/
def envAb : QueryEnv := ⟨fun _ => some [1], fun _ _ => [], fun _ => "x"⟩

/-- Retrieval scenario: the query embeds and the search returns a single
chunk of similarity 1/2, below the 0.7 threshold. -/
def envLow : QueryEnv :=
  ⟨fun _ => some [1], fun _ _ => [⟨1, "c", "f", 1 / 2⟩], fun _ => "g"⟩

/-- Retrieval scenario: the query embeds and the search returns a single
chunk of similarity 1 (an integer rational, above the threshold). -/
def envHigh : QueryEnv :=
  ⟨fun _ => some [1], fun _ _ => [⟨1, "c", "f", 1⟩], fun _ => "g"⟩

/-- Batch-embedding scenario: the provider call fails exactly when the item
`"bad"` is part of the request, and otherwise embeds every item. -/
def apiEx (ts : List String) : Option (List Vec) :=
  if ts.contains "bad" then none else some (ts.map fun _ => [1])

/-! ## Helper lemmas on the ingestion loop -/

theorem ingestLoop_cons_none {e : ℕ → Option Vec} {i : ℕ} (h : e i = none)
    (d : ℕ) (f : String) (u t : ℕ) (c : String) (rest : List String) :
    ingestLoop e d f u t i (c :: rest) = ingestLoop e d f u t (i + 1) rest := by
  simp [ingestLoop, h]

theorem ingestLoop_cons_some {e : ℕ → Option Vec} {i : ℕ} {v : Vec} (h : e i = some v)
    (d : ℕ) (f : String) (u t : ℕ) (c : String) (rest : List String) :
    ingestLoop e d f u t i (c :: rest) =
      (⟨d, i, c, v, f, i, t, u⟩ :: (ingestLoop e d f u t (i + 1) rest).1,
       (ingestLoop e d f u t (i + 1) rest).2 + 1) := by
  simp [ingestLoop, h]

/-- The persisted chunk indices are exactly the positions (counted from `i`)
whose embedding call succeeded, in source order. -/
theorem ingestLoop_map_index (e : ℕ → Option Vec) (d : ℕ) (f : String) (u t : ℕ) :
    ∀ (cs : List String) (i : ℕ),
      ((ingestLoop e d f u t i cs).1).map ChunkRow.chunkIndex
        = (List.range' i cs.length).filter fun j => (e j).isSome := by
  intro cs
  induction cs with
  | nil => intro i; simp [ingestLoop]
  | cons c rest ih =>
    intro i
    rw [List.length_cons, List.range'_succ, List.filter_cons]
    cases he : e i with
    | none => rw [ingestLoop_cons_none he]; simp [he, ih (i + 1)]
    | some v => rw [ingestLoop_cons_some he]; simp [he, ih (i + 1)]

/-- The `processed_chunks` counter equals the number of persisted rows. -/
theorem ingestLoop_count (e : ℕ → Option Vec) (d : ℕ) (f : String) (u t : ℕ) :
    ∀ (cs : List String) (i : ℕ),
      (ingestLoop e d f u t i cs).2 = ((ingestLoop e d f u t i cs).1).length := by
  intro cs
  induction cs with
  | nil => intro i; simp [ingestLoop]
  | cons c rest ih =>
    intro i
    cases he : e i with
    | none => rw [ingestLoop_cons_none he]; exact ih (i + 1)
    | some v => rw [ingestLoop_cons_some he]; simp [ih (i + 1)]

/-- Every persisted row carries the fixed document id, filename, uploader and
attempted-total metadata, its metadata index equals its column index, its
content is the source chunk at its index, and its embedding is the value the
oracle returned at that index. -/
theorem ingestLoop_mem (e : ℕ → Option Vec) (d : ℕ) (f : String) (u t : ℕ) :
    ∀ (cs : List String) (i : ℕ) (row : ChunkRow), row ∈ (ingestLoop e d f u t i cs).1 →
      row.documentId = d ∧ row.metaFilename = f ∧ row.metaUploadedBy = u ∧
      row.metaTotalChunks = t ∧ row.metaChunkIndex = row.chunkIndex ∧
      ∃ k, row.chunkIndex = i + k ∧ cs[k]? = some row.content ∧
        e row.chunkIndex = some row.embedding := by
  intro cs
  induction cs with
  | nil => intro i row hrow; simp [ingestLoop] at hrow
  | cons c rest ih =>
    intro i row hrow
    cases he : e i with
    | none =>
      rw [ingestLoop_cons_none he] at hrow
      obtain ⟨h1, h2, h3, h4, h5, k, hk, hget, hemb⟩ := ih (i + 1) row hrow
      exact ⟨h1, h2, h3, h4, h5, k + 1, by omega, by simpa using hget, hemb⟩
    | some v =>
      rw [ingestLoop_cons_some he] at hrow
      rcases List.mem_cons.mp hrow with hhead | htail
      · subst hhead
        exact ⟨rfl, rfl, rfl, rfl, rfl, 0, by simp, by simp, he⟩
      · obtain ⟨h1, h2, h3, h4, h5, k, hk, hget, hemb⟩ := ih (i + 1) row htail
        exact ⟨h1, h2, h3, h4, h5, k + 1, by omega, by simpa using hget, hemb⟩

/-- A sequence of `add_chunk` calls appends the rows in call order and leaves
every other table untouched. -/
theorem foldl_add_chunk (rows : List ChunkRow) :
    ∀ db : RagDB, rows.foldl add_chunk db = { db with chunks := db.chunks ++ rows } := by
  induction rows with
  | nil => intro db; simp
  | cons r rest ih =>
    intro db
    rw [List.foldl_cons, ih]
    simp [add_chunk]

/-- Full description of `_process_and_save` on a splitter output that is not
empty: the document row is created with the fresh id and finalised to the
processed count, the surviving chunk rows are appended in order, and the
outcome reports the processed count and the text length. -/
theorem process_and_save_spec (ctx : UploadCtx) (db : RagDB)
    (text filename fileHash : String) (uid : ℕ)
    (hfresh : ∀ d ∈ db.docs, d.id ≠ db.nextId)
    (hne : ctx.split text ≠ []) :
    process_and_save ctx db text filename fileHash uid =
      { outcome := .ok db.nextId
          (ingestLoop ctx.embedAt db.nextId filename uid (ctx.split text).length 0 (ctx.split text)).2
          text.length,
        db := { docs := db.docs ++ [⟨db.nextId, filename, fileHash, uid,
                  (ingestLoop ctx.embedAt db.nextId filename uid (ctx.split text).length 0
                    (ctx.split text)).2⟩],
                chunks := db.chunks ++
                  (ingestLoop ctx.embedAt db.nextId filename uid (ctx.split text).length 0
                    (ctx.split text)).1,
                nextId := db.nextId + 1 },
        extracted := false, splitCalled := true,
        embedCalls := (ctx.split text).length } := by
  have hie : (ctx.split text).isEmpty = false := by
    simpa [List.isEmpty_iff] using hne
  have hmap : db.docs.map
      (fun d => if d.id = db.nextId then
        { d with totalChunks :=
            (ingestLoop ctx.embedAt db.nextId filename uid (ctx.split text).length 0
              (ctx.split text)).2 }
        else d) = db.docs := by
    have h1 : db.docs.map
        (fun d => if d.id = db.nextId then
          { d with totalChunks :=
              (ingestLoop ctx.embedAt db.nextId filename uid (ctx.split text).length 0
                (ctx.split text)).2 }
          else d) = db.docs.map (fun d => d) :=
      List.map_congr_left fun d hd => if_neg (hfresh d hd)
    rw [h1, List.map_id']
  simp only [process_and_save, hie, Bool.false_eq_true, if_false,
    add_document, foldl_add_chunk, set_total_chunks]
  simp [hmap]

/-! ## Claims about the ingestion pipeline core (`_process_and_save`) -/

/-- C1: for every ingestion in which the splitter produces a non-empty chunk
list and the embedding call at position `j` succeeds exactly for the
positions `S = { j | embedAt j ≠ None }`, the finalised document count
equals `|S|`, no chunk row exists for any skipped position, every persisted
chunk's `chunk_index` equals its position in the splitter's output (its
content is the chunk at that position), and the persisted index sequence is
strictly increasing — gaps possible, duplicates and reordering impossible. -/
theorem c1_chunk_index_fidelity (ctx : UploadCtx) (db : RagDB)
    (text filename fileHash : String) (uid : ℕ)
    (hfresh : ∀ d ∈ db.docs, d.id ≠ db.nextId)
    (hne : ctx.split text ≠ []) :
    ∃ rows : List ChunkRow,
      (process_and_save ctx db text filename fileHash uid).db.chunks = db.chunks ++ rows ∧
      rows.map ChunkRow.chunkIndex
        = (List.range (ctx.split text).length).filter (fun j => (ctx.embedAt j).isSome) ∧
      (∀ i, ctx.embedAt i = none → ∀ row ∈ rows, row.chunkIndex ≠ i) ∧
      (∀ row ∈ rows, (ctx.split text)[row.chunkIndex]? = some row.content) ∧
      (rows.map ChunkRow.chunkIndex).Pairwise (· < ·) ∧
      (process_and_save ctx db text filename fileHash uid).db.docs
        = db.docs ++ [⟨db.nextId, filename, fileHash, uid, rows.length⟩] ∧
      rows.length = ((List.range (ctx.split text).length).filter
        (fun j => (ctx.embedAt j).isSome)).length ∧
      (process_and_save ctx db text filename fileHash uid).outcome
        = .ok db.nextId rows.length text.length := by
  rw [process_and_save_spec ctx db text filename fileHash uid hfresh hne]
  refine ⟨(ingestLoop ctx.embedAt db.nextId filename uid (ctx.split text).length 0
    (ctx.split text)).1, rfl, ?_, ?_, ?_, ?_, ?_, ?_, ?_⟩
  · rw [ingestLoop_map_index, List.range_eq_range']
  · intro i hi row hrow hidx
    have hmem : row.chunkIndex ∈ ((ingestLoop ctx.embedAt db.nextId filename uid
        (ctx.split text).length 0 (ctx.split text)).1).map ChunkRow.chunkIndex :=
      List.mem_map_of_mem ChunkRow.chunkIndex hrow
    rw [ingestLoop_map_index] at hmem
    have := (List.mem_filter.mp hmem).2
    rw [hidx, hi] at this
    simp at this
  · intro row hrow
    obtain ⟨_, _, _, _, _, k, hk, hget, _⟩ :=
      ingestLoop_mem ctx.embedAt db.nextId filename uid (ctx.split text).length
        (ctx.split text) 0 row hrow
    rw [hk]
    simpa using hget
  · rw [ingestLoop_map_index, ← List.range_eq_range']
    exact (List.pairwise_lt_range _).filter _
  · rw [ingestLoop_count]
  · have := congrArg List.length (ingestLoop_map_index ctx.embedAt db.nextId filename uid
      (ctx.split text).length (ctx.split text) 0)
    rw [List.length_map] at this
    rw [List.range_eq_range']
    exact this
  · rw [ingestLoop_count]

/-- Witness for C1: the one-chunk always-succeeding scenario `ctxW` on the
empty store. -/
theorem c1_chunk_index_fidelity_witness :
    (∀ d ∈ db0.docs, d.id ≠ db0.nextId) ∧ ctxW.split "hello world abcdefg" ≠ [] ∧
    ∃ rows : List ChunkRow,
      (process_and_save ctxW db0 "hello world abcdefg" "a.txt" "hW" 7).db.chunks
        = db0.chunks ++ rows ∧
      rows.map ChunkRow.chunkIndex
        = (List.range (ctxW.split "hello world abcdefg").length).filter
            (fun j => (ctxW.embedAt j).isSome) ∧
      (∀ i, ctxW.embedAt i = none → ∀ row ∈ rows, row.chunkIndex ≠ i) ∧
      (∀ row ∈ rows, (ctxW.split "hello world abcdefg")[row.chunkIndex]? = some row.content) ∧
      (rows.map ChunkRow.chunkIndex).Pairwise (· < ·) ∧
      (process_and_save ctxW db0 "hello world abcdefg" "a.txt" "hW" 7).db.docs
        = db0.docs ++ [⟨db0.nextId, "a.txt", "hW", 7, rows.length⟩] ∧
      rows.length = ((List.range (ctxW.split "hello world abcdefg").length).filter
        (fun j => (ctxW.embedAt j).isSome)).length ∧
      (process_and_save ctxW db0 "hello world abcdefg" "a.txt" "hW" 7).outcome
        = .ok db0.nextId rows.length "hello world abcdefg".length :=
  ⟨by simp [db0], by simp [ctxW],
   c1_chunk_index_fidelity ctxW db0 "hello world abcdefg" "a.txt" "hW" 7
     (by simp [db0]) (by simp [ctxW])⟩

/-- C9: after an ingestion with a non-empty splitter output, every persisted
chunk's metadata field `total_chunks` equals the attempted count (the number
of chunks the splitter produced), while the owning document row's
`total_chunks` column equals the number of chunks actually persisted — the
two can disagree when embeddings fail, and the chunk metadata never
reflects skips. -/
theorem c9_meta_total_vs_doc_total (ctx : UploadCtx) (db : RagDB)
    (text filename fileHash : String) (uid : ℕ)
    (hfresh : ∀ d ∈ db.docs, d.id ≠ db.nextId)
    (hne : ctx.split text ≠ []) :
    ∃ rows : List ChunkRow,
      (process_and_save ctx db text filename fileHash uid).db.chunks = db.chunks ++ rows ∧
      (∀ row ∈ rows, row.metaTotalChunks = (ctx.split text).length) ∧
      (process_and_save ctx db text filename fileHash uid).db.docs
        = db.docs ++ [⟨db.nextId, filename, fileHash, uid, rows.length⟩] ∧
      (process_and_save ctx db text filename fileHash uid).outcome
        = .ok db.nextId rows.length text.length := by
  rw [process_and_save_spec ctx db text filename fileHash uid hfresh hne]
  refine ⟨(ingestLoop ctx.embedAt db.nextId filename uid (ctx.split text).length 0
    (ctx.split text)).1, rfl, ?_, ?_, ?_⟩
  · intro row hrow
    exact (ingestLoop_mem ctx.embedAt db.nextId filename uid (ctx.split text).length
      (ctx.split text) 0 row hrow).2.2.2.1
  · rw [ingestLoop_count]
  · rw [ingestLoop_count]

/-- Witness for C9: `ctx9` splits into two chunks and the embedding call at
position 0 fails, so the one surviving chunk's metadata says 2 total chunks
while the document row is finalised to 1. -/
theorem c9_meta_total_vs_doc_total_witness :
    (∃ rows : List ChunkRow,
      (process_and_save ctx9 db0 "t" "f.txt" "h9" 1).db.chunks = db0.chunks ++ rows ∧
      (∀ row ∈ rows, row.metaTotalChunks = (ctx9.split "t").length) ∧
      (process_and_save ctx9 db0 "t" "f.txt" "h9" 1).db.docs
        = db0.docs ++ [⟨db0.nextId, "f.txt", "h9", 1, rows.length⟩] ∧
      (process_and_save ctx9 db0 "t" "f.txt" "h9" 1).outcome
        = .ok db0.nextId rows.length "t".length) ∧
    (process_and_save ctx9 db0 "t" "f.txt" "h9" 1).db.chunks
      = [⟨1, 1, "c1", [1], "f.txt", 1, 2, 1⟩] ∧
    (process_and_save ctx9 db0 "t" "f.txt" "h9" 1).db.docs
      = [⟨1, "f.txt", "h9", 1, 1⟩] :=
  ⟨c9_meta_total_vs_doc_total ctx9 db0 "t" "f.txt" "h9" 1
     (by simp [db0]) (by simp [ctx9]),
   rfl, rfl⟩

/-! ## Claims about duplicate handling (`process_file`) -/

/-- After `_process_and_save` runs on a non-empty splitter output, a document
row carrying the given file hash is present in the store (the finalising
update never changes the hash column). -/
theorem process_and_save_hash (ctx : UploadCtx) (db : RagDB)
    (text filename fileHash : String) (uid : ℕ) (hne : ctx.split text ≠ []) :
    hashExists (process_and_save ctx db text filename fileHash uid).db fileHash = true := by
  have hie : (ctx.split text).isEmpty = false := by
    simpa [List.isEmpty_iff] using hne
  simp only [process_and_save, hie, Bool.false_eq_true, if_false, foldl_add_chunk,
    add_document, set_total_chunks, hashExists]
  apply List.any_eq_true.mpr
  exact ⟨_, List.mem_map_of_mem _ (List.mem_append_right _ (List.mem_singleton_self _)),
    by simp⟩

/-- A text upload that returns the success dictionary leaves a document row
with the hash of its raw bytes in the store. -/
theorem process_text_ok_hash (ctx : UploadCtx) (db : RagDB) (bytes : Bytes)
    (fn : String) (uid : ℕ)
    (h : isOk (process_text ctx db bytes fn uid).outcome = true) :
    hashExists (process_text ctx db bytes fn uid).db (ctx.md5 bytes) = true := by
  by_cases hdup : hashExists db (ctx.md5 bytes) = true
  · simp [process_text, hdup]
  · cases hdec : ctx.decode bytes with
    | none => exfalso; simp [process_text, hdup, hdec, isOk] at h
    | some t0 =>
      by_cases hlen : pyEmpty (stripNull t0) = true ∨ (pyStrip (stripNull t0)).length < 10
      · exfalso; simp [process_text, hdup, hdec, hlen, isOk] at h
      · by_cases hsp : ctx.split (stripNull t0) = []
        · exfalso
          simp [process_text, hdup, hdec, hlen, process_and_save, hsp, isOk] at h
        · have := process_and_save_hash ctx db (stripNull t0) fn (ctx.md5 bytes) uid hsp
          simpa [process_text, hdup, hdec, hlen] using this

/-- A PDF upload that returns the success dictionary leaves a document row
with the hash of its raw bytes in the store. -/
theorem process_pdf_ok_hash (ctx : UploadCtx) (db : RagDB) (bytes : Bytes)
    (fn : String) (uid : ℕ)
    (h : isOk (process_pdf ctx db bytes fn uid).outcome = true) :
    hashExists (process_pdf ctx db bytes fn uid).db (ctx.md5 bytes) = true := by
  by_cases hdup : hashExists db (ctx.md5 bytes) = true
  · simp [process_pdf, hdup]
  · by_cases hlen : pyEmpty (ctx.extractPdf bytes) = true
        ∨ (pyStrip (ctx.extractPdf bytes)).length < 10
    · exfalso; simp [process_pdf, hdup, hlen, isOk] at h
    · by_cases hsp : ctx.split (ctx.extractPdf bytes) = []
      · exfalso
        simp [process_pdf, hdup, hlen, process_and_save, hsp, isOk] at h
      · have := process_and_save_hash ctx db (ctx.extractPdf bytes) fn (ctx.md5 bytes) uid hsp
        simpa [process_pdf, hdup, hlen] using this

/-- A DOCX upload that returns the success dictionary leaves a document row
with the hash of its raw bytes in the store. -/
theorem process_docx_ok_hash (ctx : UploadCtx) (db : RagDB) (bytes : Bytes)
    (fn : String) (uid : ℕ)
    (h : isOk (process_docx ctx db bytes fn uid).outcome = true) :
    hashExists (process_docx ctx db bytes fn uid).db (ctx.md5 bytes) = true := by
  by_cases hdup : hashExists db (ctx.md5 bytes) = true
  · simp [process_docx, hdup]
  · by_cases hlen : pyEmpty (ctx.extractDocx bytes) = true
        ∨ (pyStrip (ctx.extractDocx bytes)).length < 10
    · exfalso; simp [process_docx, hdup, hlen, isOk] at h
    · by_cases hsp : ctx.split (ctx.extractDocx bytes) = []
      · exfalso
        simp [process_docx, hdup, hlen, process_and_save, hsp, isOk] at h
      · have := process_and_save_hash ctx db (ctx.extractDocx bytes) fn (ctx.md5 bytes) uid hsp
        simpa [process_docx, hdup, hlen] using this

/-- Any `process_file` call that returns the success dictionary leaves a
document row with the hash of its raw bytes in the store. -/
theorem process_file_ok_hash (ctx : UploadCtx) (db : RagDB) (bytes : Bytes)
    (fn : String) (uid : ℕ)
    (h : isOk (process_file ctx db bytes fn uid).outcome = true) :
    hashExists (process_file ctx db bytes fn uid).db (ctx.md5 bytes) = true := by
  by_cases h1 : fileExt fn = "pdf"
  · rw [process_file] at h ⊢
    simp only [h1, if_true] at h ⊢
    exact process_pdf_ok_hash ctx db bytes fn uid (by simpa using h)
  · by_cases h2 : fileExt fn = "txt" ∨ fileExt fn = "md" ∨ fileExt fn = "text"
    · rw [process_file] at h ⊢
      simp only [h1, if_false] at h ⊢
      rw [if_pos (by simpa using h2)] at h ⊢
      exact process_text_ok_hash ctx db bytes fn uid h
    · by_cases h3 : fileExt fn = "docx" ∨ fileExt fn = "doc"
      · rw [process_file] at h ⊢
        simp only [h1, if_false] at h ⊢
        rw [if_neg (by simpa using h2), if_pos (by simpa using h3)] at h ⊢
        exact process_docx_ok_hash ctx db bytes fn uid h
      · exfalso
        rw [process_file] at h
        simp [h1, h2, h3, isOk] at h

/-- When the raw bytes' hash is already present, `process_file` on any
supported extension rejects with the duplicate error before extraction,
splitting or any embedding call, and leaves the store unchanged. -/
theorem process_file_duplicate (ctx : UploadCtx) (db : RagDB) (bytes : Bytes)
    (fn : String) (uid : ℕ)
    (hdup : hashExists db (ctx.md5 bytes) = true)
    (hsup : supportedExt (fileExt fn) = true) :
    process_file ctx db bytes fn uid = ⟨.err .duplicate, db, false, false, 0⟩ := by
  by_cases h1 : fileExt fn = "pdf"
  · simp [process_file, process_pdf, h1, hdup]
  · by_cases h2 : fileExt fn = "txt" ∨ fileExt fn = "md" ∨ fileExt fn = "text"
    · simp [process_file, process_text, h1, h2, hdup]
    · by_cases h3 : fileExt fn = "docx" ∨ fileExt fn = "doc"
      · simp [process_file, process_docx, h1, h2, h3, hdup]
      · exfalso
        simp [supportedExt, h1, h2, h3] at hsup

/-- C2 counterexample: two `process_file` calls on byte-identical content
(`"hi"` as a .txt upload) where the first call is itself rejected by the
minimum-content floor.  The second call repeats the empty-or-unreadable
rejection instead of the duplicate-document rejection, refuting the claim
as universally stated. -/
theorem c2_counterexample :
    (process_file ctx2 db0 [104, 105] "a.txt" 1).outcome = .err .emptyOrUnreadable ∧
    (process_file ctx2 db0 [104, 105] "a.txt" 1).db = db0 ∧
    (process_file ctx2 (process_file ctx2 db0 [104, 105] "a.txt" 1).db
        [104, 105] "a.txt" 2).outcome = .err .emptyOrUnreadable ∧
    (process_file ctx2 (process_file ctx2 db0 [104, 105] "a.txt" 1).db
        [104, 105] "a.txt" 2).outcome ≠ .err .duplicate :=
  ⟨rfl, rfl, rfl, by decide⟩

/-- C2 amended: when the first `process_file` call on the raw bytes succeeds
(creates a document row) and the second call names a supported file kind,
the second call on byte-identical content fails with the duplicate-document
rejection before any text extraction, splitting or embedding work, and
creates no new document or chunk rows (the store is returned unchanged). -/
theorem c2_duplicate_rejection (ctx : UploadCtx) (db : RagDB) (bytes : Bytes)
    (fn1 fn2 : String) (u1 u2 : ℕ)
    (h1 : isOk (process_file ctx db bytes fn1 u1).outcome = true)
    (h2 : supportedExt (fileExt fn2) = true) :
    process_file ctx (process_file ctx db bytes fn1 u1).db bytes fn2 u2
      = ⟨.err .duplicate, (process_file ctx db bytes fn1 u1).db, false, false, 0⟩ :=
  process_file_duplicate ctx _ bytes fn2 u2 (process_file_ok_hash ctx db bytes fn1 u1 h1) h2

/-- Witness for C2 amended: a successful .txt upload followed by the same
bytes under a .md name. -/
theorem c2_duplicate_rejection_witness :
    isOk (process_file ctxW db0 [1, 2] "a.txt" 7).outcome = true ∧
    supportedExt (fileExt "b.md") = true ∧
    process_file ctxW (process_file ctxW db0 [1, 2] "a.txt" 7).db [1, 2] "b.md" 8
      = ⟨.err .duplicate, (process_file ctxW db0 [1, 2] "a.txt" 7).db, false, false, 0⟩ :=
  ⟨rfl, rfl, c2_duplicate_rejection ctxW db0 [1, 2] "a.txt" "b.md" 7 8 rfl rfl⟩

/-! ## Claims about the minimum-content floor -/

/-- Text-file decode scenario yielding `"hi there"`: 8 characters after
stripping, below the floor. -/
def ctx7w : UploadCtx :=
  { md5 := fun _ => "h7w", split := fun t => [t], embedAt := fun _ => some [1],
    decode := fun _ => some "hi there", extractPdf := fun _ => "", extractDocx := fun _ => "" }

/-- C7 counterexample: the decoded text `"a a a a a a"` contains 6
non-whitespace characters (fewer than 10), yet ingestion succeeds and
creates a document row, because the source tests
`len(text.strip()) < 10` — the length after trimming outer whitespace
(11 here) — not the non-whitespace count. -/
theorem c7_counterexample :
    spec_non_whitespace_count "a a a a a a" < 10 ∧
    ctx7.decode [0] = some "a a a a a a" ∧
    (process_file ctx7 db0 [0] "a.txt" 1).outcome = .ok 1 1 11 ∧
    (process_file ctx7 db0 [0] "a.txt" 1).db.docs = [⟨1, "a.txt", "h7", 1, 1⟩] :=
  ⟨by decide, rfl, rfl, rfl⟩

/-- C7 amended: provided the content is not a duplicate, whenever the
decoded/extracted text has fewer than 10 characters **after stripping
leading and trailing whitespace** (or decoding fails entirely), each
processor rejects with the empty-or-unreadable error before any splitting
or embedding work, leaving the store unchanged. -/
theorem c7_minimum_content_floor (ctx : UploadCtx) (db : RagDB) (bytes : Bytes)
    (fn : String) (uid : ℕ)
    (hdup : hashExists db (ctx.md5 bytes) = false) :
    (∀ t, ctx.decode bytes = some t → (pyStrip (stripNull t)).length < 10 →
      process_text ctx db bytes fn uid = ⟨.err .emptyOrUnreadable, db, true, false, 0⟩) ∧
    (ctx.decode bytes = none →
      process_text ctx db bytes fn uid = ⟨.err .emptyOrUnreadable, db, true, false, 0⟩) ∧
    ((pyStrip (ctx.extractPdf bytes)).length < 10 →
      process_pdf ctx db bytes fn uid = ⟨.err .emptyOrUnreadable, db, true, false, 0⟩) ∧
    ((pyStrip (ctx.extractDocx bytes)).length < 10 →
      process_docx ctx db bytes fn uid = ⟨.err .emptyOrUnreadable, db, true, false, 0⟩) := by
  refine ⟨?_, ?_, ?_, ?_⟩
  · intro t hdec hlen
    simp [process_text, hdup, hdec, hlen]
  · intro hdec
    simp [process_text, hdup, hdec]
  · intro hlen
    simp [process_pdf, hdup, hlen]
  · intro hlen
    simp [process_docx, hdup, hlen]

/-- Witness for C7 amended: an 8-character decoded text on the empty store
is rejected with no rows created. -/
theorem c7_minimum_content_floor_witness :
    hashExists db0 (ctx7w.md5 [0]) = false ∧
    ((∀ t, ctx7w.decode [0] = some t → (pyStrip (stripNull t)).length < 10 →
      process_text ctx7w db0 [0] "a.txt" 1 = ⟨.err .emptyOrUnreadable, db0, true, false, 0⟩) ∧
    (ctx7w.decode [0] = none →
      process_text ctx7w db0 [0] "a.txt" 1 = ⟨.err .emptyOrUnreadable, db0, true, false, 0⟩) ∧
    ((pyStrip (ctx7w.extractPdf [0])).length < 10 →
      process_pdf ctx7w db0 [0] "a.txt" 1 = ⟨.err .emptyOrUnreadable, db0, true, false, 0⟩) ∧
    ((pyStrip (ctx7w.extractDocx [0])).length < 10 →
      process_docx ctx7w db0 [0] "a.txt" 1 = ⟨.err .emptyOrUnreadable, db0, true, false, 0⟩)) ∧
    process_text ctx7w db0 [0] "a.txt" 1 = ⟨.err .emptyOrUnreadable, db0, true, false, 0⟩ :=
  ⟨rfl, c7_minimum_content_floor ctx7w db0 [0] "a.txt" 1 rfl, rfl⟩

/-! ## Claims about the retrieval engine -/

/-- C3: whenever the query embedding succeeds and every chunk returned by the
store search has similarity strictly below the 0.7 threshold,
`process_query` returns the no-opinion abstention (`None`), does not call
the generation backend, and records no usage row (zero chunks used). -/
theorem c3_below_threshold_abstains (env : QueryEnv) (uid : ℕ) (query : String) (v : Vec)
    (hemb : env.embed query = some v)
    (hlow : ∀ c ∈ env.search v 4, c.similarity < similarity_threshold) :
    process_query env uid query = ⟨none, false, none⟩ := by
  have hrel : relevant_of env v = [] := by
    rw [relevant_of, List.filter_eq_nil_iff]
    intro c hc
    simp only [decide_eq_true_eq]
    exact not_le.mpr (hlow c hc)
  simp [process_query, hemb, hrel]

/-- Witness for C3: a store whose only hit has similarity 1/2. -/
theorem c3_below_threshold_abstains_witness :
    envLow.embed "q" = some [1] ∧
    (∀ c ∈ envLow.search [1] 4, c.similarity < similarity_threshold) ∧
    process_query envLow 7 "q" = ⟨none, false, none⟩ := by
  have hlow : ∀ c ∈ envLow.search [1] 4, c.similarity < similarity_threshold := by
    intro c hc
    simp [envLow] at hc
    subst hc
    norm_num [similarity_threshold]
  exact ⟨rfl, hlow, c3_below_threshold_abstains envLow 7 "q" [1] rfl hlow⟩

/-- C4 counterexample: a query whose embedding succeeds and whose store
search executes (returning no chunks on an empty corpus) records **no**
usage row, because `process_query` logs usage only on the full success
path — refuting the claim that a usage record is written on abstention. -/
theorem c4_counterexample :
    (envAb.embed "q").isSome = true ∧
    (process_query envAb 1 "q").logged = none :=
  ⟨rfl, rfl⟩

/-- C4 amended: a usage record is written exactly when `process_query`
returns the success dictionary (relevant chunks found and generation
completed); when written it carries the caller's user id, the query text
and the same chunks-used count as the returned dictionary.  Abstention and
failure paths record nothing. -/
theorem c4_usage_logged_iff_success (env : QueryEnv) (uid : ℕ) (query : String) :
    ((process_query env uid query).logged.isSome
      ↔ (process_query env uid query).retval.isSome) ∧
    (∀ r, (process_query env uid query).logged = some r →
      r.userId = uid ∧ r.query = query ∧
      ∃ s, (process_query env uid query).retval = some s ∧ r.chunksUsed = s.chunksUsed) := by
  cases hemb : env.embed query with
  | none => simp [process_query, hemb]
  | some v =>
    by_cases hrel : (relevant_of env v).isEmpty = true
    · simp [process_query, hemb, hrel]
    · simp only [process_query, hemb, hrel, Bool.false_eq_true, if_false]
      refine ⟨by simp, ?_⟩
      intro r hr
      simp only [Option.some.injEq] at hr
      subst hr
      exact ⟨rfl, rfl, _, rfl, rfl⟩

/-- Witness for C4 amended: the success scenario `envHigh` (one chunk of
similarity 1). -/
theorem c4_usage_logged_iff_success_witness :
    ((process_query envHigh 9 "q").logged.isSome
      ↔ (process_query envHigh 9 "q").retval.isSome) ∧
    (∀ r, (process_query envHigh 9 "q").logged = some r →
      r.userId = 9 ∧ r.query = "q" ∧
      ∃ s, (process_query envHigh 9 "q").retval = some s ∧ r.chunksUsed = s.chunksUsed) :=
  c4_usage_logged_iff_success envHigh 9 "q"

/-! ## Claims about batch embedding -/

/-- C5 counterexample: with the provider `apiEx` (which fails whenever the
item `"bad"` is in the request), `"good"` embeds fine on its own, but in a
batch together with `"bad"` the single provider call fails and **every**
position — including `"good"`'s — receives the failure marker.  One item's
failure does force failure markers at other positions. -/
theorem c5_counterexample :
    create_embeddings_batch apiEx ["good"] = [some [1]] ∧
    create_embeddings_batch apiEx ["good", "bad"] = [none, none] :=
  ⟨rfl, rfl⟩

/-- C5 amended: the batch is one provider call on the truncated texts.  When
that call succeeds, the result is the returned vectors wrapped in `some`,
position by position in provider order (so, under the provider's
one-vector-per-input contract, same length and order as the input); when
it fails, every position receives the failure marker `none` (the length is
still preserved).  Positions do **not** resolve independently. -/
theorem c5_batch_single_call (api : List String → Option (List Vec)) (texts : List String) :
    (api (texts.map truncate8000) = none →
      create_embeddings_batch api texts = List.replicate texts.length none) ∧
    (∀ embs, api (texts.map truncate8000) = some embs →
      create_embeddings_batch api texts = embs.map some) ∧
    (∀ embs, api (texts.map truncate8000) = some embs → embs.length = texts.length →
      (create_embeddings_batch api texts).length = texts.length) ∧
    (api (texts.map truncate8000) = none →
      (create_embeddings_batch api texts).length = texts.length) := by
  refine ⟨?_, ?_, ?_, ?_⟩
  · intro hnone; simp [create_embeddings_batch, hnone]
  · intro embs hsome; simp [create_embeddings_batch, hsome]
  · intro embs hsome hlen; simp [create_embeddings_batch, hsome, hlen]
  · intro hnone; simp [create_embeddings_batch, hnone]

/-- Witness for C5 amended: `apiEx` on the failing pair and on the singleton. -/
theorem c5_batch_single_call_witness :
    create_embeddings_batch apiEx ["good", "bad"]
      = List.replicate (["good", "bad"].length) none ∧
    create_embeddings_batch apiEx ["good"] = [[(1 : ℚ)]].map some :=
  ⟨(c5_batch_single_call apiEx ["good", "bad"]).1 rfl,
   (c5_batch_single_call apiEx ["good"]).2.1 [[(1 : ℚ)]] rfl⟩

/-! ## Claims about startup retry behaviour -/

theorem connect_attempts_fail_last {succ : ℕ → Bool} {a : ℕ} (h : succ a = false) (d : ℕ) :
    connect_attempts succ d a 1 = (Except.error (), []) := by
  simp [connect_attempts, h]

theorem connect_attempts_fail_step {succ : ℕ → Bool} {a : ℕ} (h : succ a = false) (d n : ℕ) :
    connect_attempts succ d a (n + 2) =
      ((connect_attempts succ d (a + 1) (n + 1)).1,
       d * 2 ^ a :: (connect_attempts succ d (a + 1) (n + 1)).2) := by
  simp [connect_attempts, h]

/-- When every attempt in the window fails, the loop raises after sleeping
`d * 2 ^ attempt` between consecutive attempts (no sleep after the last). -/
theorem connect_attempts_all_fail (succ : ℕ → Bool) (d : ℕ) :
    ∀ n a, (∀ k, k < n → succ (a + k) = false) →
      connect_attempts succ d a n
        = (Except.error (), (List.range (n - 1)).map fun j => d * 2 ^ (a + j)) := by
  intro n
  induction n using Nat.strong_induction_on with
  | _ n ih =>
    match n with
    | 0 => intro a _; simp [connect_attempts]
    | 1 =>
      intro a h
      have h0 : succ a = false := by simpa using h 0 (by omega)
      rw [connect_attempts_fail_last h0]
      simp
    | m + 2 =>
      intro a h
      have h0 : succ a = false := by simpa using h 0 (by omega)
      rw [connect_attempts_fail_step h0]
      rw [ih (m + 1) (by omega) (a + 1) (fun k hk => by
        have hx := h (k + 1) (by omega)
        rw [show a + (k + 1) = a + 1 + k by omega] at hx
        exact hx)]
      have hl : d * 2 ^ a :: List.map (fun j => d * 2 ^ (a + 1 + j)) (List.range (m + 1 - 1))
          = List.map (fun j => d * 2 ^ (a + j)) (List.range (m + 2 - 1)) := by
        rw [show m + 2 - 1 = m + 1 from rfl, show m + 1 - 1 = m from rfl,
          List.range_succ_eq_map, List.map_cons, List.map_map]
        refine congrArg₂ List.cons (by simp) ?_
        refine List.map_congr_left fun j _ => ?_
        have hj : a + 1 + j = a + (j + 1) := by omega
        simp [Function.comp, hj]
      rw [hl]

/-- C6 counterexample: when the store never becomes reachable, the retry
loop of `init_rag_system` does exhaust its 5-attempt budget with doubling
delays 2, 4, 8, 16 seconds and re-raises — but `init_rag_system`'s own
outer exception handler catches the raise and returns the ordinary value
`False`, so startup is **not** halted by a propagating fatal error;
`main_async` merely logs a warning and continues with RAG disabled. -/
theorem c6_counterexample :
    (connect_attempts (fun _ => false) retry_delay 0 max_retries).1 = Except.error () ∧
    (connect_attempts (fun _ => false) retry_delay 0 max_retries).2 = [2, 4, 8, 16] ∧
    init_rag_system true true (fun _ => false) = false :=
  ⟨rfl, rfl, rfl⟩

/-- C6 amended: the startup connection is retried up to 5 attempts with
exponential backoff (delay `2 * 2 ^ attempt` seconds after each failed
non-final attempt, i.e. 2, 4, 8, 16); when every attempt fails, the
exhaustion exception is caught inside `init_rag_system`, which returns
`False` — a non-fatal outcome that leaves startup running with RAG
disabled, rather than a propagating fatal error. -/
theorem c6_retry_exhaustion_nonfatal (succ : ℕ → Bool)
    (hfail : ∀ k, k < max_retries → succ k = false) :
    connect_attempts succ retry_delay 0 max_retries = (Except.error (), [2, 4, 8, 16]) ∧
    init_rag_system true true succ = false := by
  have he := connect_attempts_all_fail succ retry_delay max_retries 0
    (fun k hk => by simpa using hfail k hk)
  constructor
  · rw [he]
    rfl
  · simp [init_rag_system, he]

/-- Witness for C6 amended: the never-succeeding connection. -/
theorem c6_retry_exhaustion_nonfatal_witness :
    connect_attempts (fun _ => false) retry_delay 0 max_retries
      = (Except.error (), [2, 4, 8, 16]) ∧
    init_rag_system true true (fun _ => false) = false :=
  c6_retry_exhaustion_nonfatal (fun _ => false) (fun _ _ => rfl)

/-! ## Claims about context assembly and the generation call -/

theorem context_parts_eq (chunks : List SChunk) :
    ∀ i, context_parts i chunks = chunks.map (context_entry 0) := by
  induction chunks with
  | nil => intro i; simp [context_parts]
  | cons c rest ih =>
    intro i
    simp only [context_parts, List.map_cons]
    rw [ih (i + 1)]
    rfl

/-- C8: the assembled context block is exactly the `"\n\n"`-join, in the
order the store returned the chunks, of one entry per chunk consisting of
the source-filename/similarity tag followed by the chunk content truncated
at a display length of 500 characters (with an ellipsis marker when cut). -/
theorem c8_context_assembly (chunks : List SChunk) :
    build_context chunks = String.intercalate "\n\n" (chunks.map fun c =>
      "[Источник: " ++ c.filename ++ ", релевантность: " ++ format_similarity c.similarity
        ++ "]:\n"
        ++ (if c.content.length > 500 then pyTake c.content 500 ++ "..." else c.content)) := by
  rw [build_context, context_parts_eq]
  rfl

/-- Environment whose provider call always times out. -/
def aiTimeoutEnv : AiEnv := ⟨fun _ => .timeout⟩

/-- C10: `get_response` is total at its interface — it returns a plain
string on every provider outcome: the cleaned completion on success, the
fixed waiting message on timeout and the fixed unavailability message on
any other provider error, so the outcome shape never distinguishes a
generated answer from a fallback. -/
theorem c10_get_response_total (env : AiEnv) (sp spr um : String)
    (hist : List Msg) (rag : Bool) :
    (∀ t, env.complete (build_messages sp spr rag hist um) = .ok t →
      get_response env sp spr um hist rag = pyStrip (pyReplace (pyStrip t) "```" "")) ∧
    (env.complete (build_messages sp spr rag hist um) = .timeout →
      get_response env sp spr um hist rag = timeout_message) ∧
    (∀ e, env.complete (build_messages sp spr rag hist um) = .err e →
      get_response env sp spr um hist rag = unavailable_message) ∧
    ∃ s : String, get_response env sp spr um hist rag = s := by
  refine ⟨?_, ?_, ?_, ⟨_, rfl⟩⟩
  · intro t ht; simp [get_response, ht]
  · intro ht; simp [get_response, ht]
  · intro e he; simp [get_response, he]

/-- Witness for C10: an always-timing-out provider yields the fixed waiting
message. -/
theorem c10_get_response_total_witness :
    aiTimeoutEnv.complete (build_messages "sp" "spr" true [] "hi") = .timeout ∧
    get_response aiTimeoutEnv "sp" "spr" "hi" [] true = timeout_message :=
  ⟨rfl, (c10_get_response_total aiTimeoutEnv "sp" "spr" "hi" [] true).2.1 rfl⟩
